import Mathlib

/-!
Verification of the craftbg-backend HTTP relay (src/src/server.ts).

The server exposes two POST endpoints (`/api/remove-bg`, `/api/enhance-image`)
that forward an uploaded image to an upstream provider and relay the result,
plus a liveness route and a 404 fallback.  We embed the request handlers as
pure Lean functions: the outcome of each outbound axios call is passed in as
an explicit argument (`CallResult`), JSON values exchanged with the provider
are modelled by `JVal`, and each handler returns the HTTP response it writes
together with the number of upstream calls it performed.
-/

/-- A JavaScript/JSON value, as manipulated by the handlers.  `undefined` stands
for JavaScript `undefined`, the result of reading an absent property. -/
inductive JVal where
  | undefined
  | null
  | bool (b : Bool)
  | num (n : Int)
  | str (s : String)
  | arr (xs : List JVal)
  | obj (fields : List (String × JVal))

/-- Property lookup in an object field list; absent keys give `undefined`. -/
def jLookup : List (String × JVal) → String → JVal
  | [], _ => .undefined
  | (k, v) :: rest, key => if k = key then v else jLookup rest key

/-- JavaScript property access `v.key` as used by the handlers; on
non-objects the properties read by the server are `undefined`. -/
def jGet : JVal → String → JVal
  | .obj fs, k => jLookup fs k
  | _, _ => .undefined

/-- JavaScript index access `v[i]` as used by the handlers (on arrays;
elsewhere the indices read by the server are `undefined`). -/
def jIndex : JVal → Nat → JVal
  | .arr xs, i => xs.getD i .undefined
  | _, _ => .undefined

/-- JavaScript truthiness, as tested by `!x` in the handlers. -/
def jTruthy : JVal → Bool
  | .undefined => false
  | .null => false
  | .bool b => b
  | .num n => n != 0
  | .str s => s != ""
  | .arr _ => true
  | .obj _ => true

/-- JavaScript strict comparison `x === 0` (true only for the number 0),
used by the enhancement handler's `error_code !== 0` test. -/
def jIsZero : JVal → Bool
  | .num n => n == 0
  | _ => false

/-- Extracts a string value, `none` for anything else (used to model
`error_detail?.message` being serialised only when it is a string). -/
def jStrOpt : JVal → Option String
  | .str s => some s
  | _ => none

/-- Coercion of the value passed to `axios.get` into a URL string; the
handlers only ever reach this with a string. -/
def jToUrlString : JVal → String
  | .str s => s
  | .num n => toString n
  | .bool b => toString b
  | _ => ""

/-- Value of one base64 alphabet character, `none` for non-alphabet
characters (including the `=` padding). -/
def b64CharVal (c : Char) : Option Nat :=
  if 'A' ≤ c ∧ c ≤ 'Z' then some (c.toNat - 65)
  else if 'a' ≤ c ∧ c ≤ 'z' then some (c.toNat - 71)
  else if '0' ≤ c ∧ c ≤ '9' then some (c.toNat + 4)
  else if c = '+' then some 62
  else if c = '/' then some 63
  else none

/-- Packs a list of 6-bit values into bytes, 4 values to 3 bytes, with the
usual truncation for a trailing group of 2 or 3 values. -/
def sixBitsToBytes : List Nat → List Nat
  | a :: b :: c :: d :: rest =>
      (a * 4 + b / 16) :: ((b % 16) * 16 + c / 4) :: ((c % 4) * 64 + d) :: sixBitsToBytes rest
  | [a, b, c] => [a * 4 + b / 16, (b % 16) * 16 + c / 4]
  | [a, b] => [a * 4 + b / 16]
  | [_] => []
  | [] => []

/-- Node's lenient base64 decoding, `Buffer.from(s, "base64")`: characters
outside the alphabet (padding included) are skipped, the rest is packed. -/
def nodeB64Decode (s : String) : List Nat :=
  sixBitsToBytes (s.data.filterMap b64CharVal)

/-- Maps every character through `b64CharVal`, failing on the first
non-alphabet character. -/
def mapB64 : List Char → Option (List Nat)
  | [] => some []
  | c :: t =>
    match b64CharVal c with
    | none => none
    | some a =>
      match mapB64 t with
      | none => none
      | some w => some (a :: w)

/-- Strict base64 decoding: succeeds exactly when, once `=` padding is
removed, every character belongs to the base64 alphabet. -/
def base64Decode? (s : String) : Option (List Nat) :=
  (mapB64 (s.data.filter (fun c => c != '='))).map sixBitsToBytes

/-- Byte coercion for `Buffer.from` applied to an array. -/
def jByte : JVal → Nat
  | .num n => (n % 256).toNat
  | _ => 0

/-- The error message of the `TypeError` thrown by `Buffer.from` on an
argument that is neither a string nor array-like. -/
def bufferTypeErrorMessage : String :=
  "The first argument must be of type string or an instance of Buffer, ArrayBuffer, or Array or an Array-like Object."

/-- `Buffer.from(v, "base64")`: decodes strings leniently, accepts arrays
byte-wise, and throws a `TypeError` on other values (notably `undefined`,
the value obtained when the expected field is absent). -/
def bufferFromBase64 : JVal → Except String (List Nat)
  | .str s => .ok (nodeB64Decode s)
  | .arr xs => .ok (xs.map jByte)
  | _ => .error bufferTypeErrorMessage

/-- Body of an HTTP response: a JSON object of string fields (`res.json`)
or raw bytes (`res.send` of a Buffer). -/
inductive Body where
  | jsonBody (fields : List (String × String))
  | binary (bytes : List Nat)
deriving DecidableEq

/-- The outward HTTP response: status, explicitly set headers, body. -/
structure HttpResponse where
  status : Nat
  contentType : Option String
  contentDisposition : Option String
  body : Body
deriving DecidableEq

/-- Field lookup in a JSON response body. -/
def lookupField : List (String × String) → String → Option String
  | [], _ => none
  | (k, v) :: rest, key => if k = key then some v else lookupField rest key

/-- Reads a field of a JSON response body; `none` on binary bodies. -/
def jsonField (r : HttpResponse) (k : String) : Option String :=
  match r.body with
  | .jsonBody fs => lookupField fs k
  | .binary _ => none

/-- Outcome of one outbound axios call, as observed by the handler's
`try`/`catch`: a 2xx payload, an HTTP error response (status together with
`error.response.data?.message` and `error.message`), or a transport error
carrying `error.code` and `error.message`. -/
inductive CallResult (α : Type) where
  | ok (data : α)
  | httpError (status : Nat) (dataMsg : Option String) (errMsg : String)
  | transport (code : Option String) (errMsg : String)

/-- The shape of the error object inspected by the `catch` blocks. -/
structure CaughtError where
  response : Option (Nat × Option String)
  code : Option String
  message : String

/-- The upstream-status-to-message mapping of the `catch` blocks;
`defaultMsg` is the endpoint's generic failure message. -/
def statusMessage (defaultMsg : String) (status : Nat) : String :=
  if status = 400 then "Invalid image format or corrupted file"
  else if status = 401 ∨ status = 403 then "API authentication error. Please check your API key"
  else if status = 429 then "API rate limit exceeded. Please try again later"
  else if status = 500 then "AI processing error. Please try again"
  else if status = 503 then "Service temporarily unavailable. Please try again in a moment"
  else defaultMsg

/-- The shared `catch` block of both endpoints: upstream HTTP errors keep
their status and get a mapped message, then `ECONNABORTED` gives 504,
`ECONNREFUSED` gives 503 with the endpoint's `refusedMsg`, and anything
else gives 500 with the raw error message attached. -/
def catchBlock (defaultMsg refusedMsg : String) (e : CaughtError) : HttpResponse :=
  match e.response with
  | some (status, dataMsg) =>
      ⟨status, none, none,
        .jsonBody [("error", statusMessage defaultMsg status),
          ("details", match dataMsg with
            | some m => if m = "" then e.message else m
            | none => e.message)]⟩
  | none =>
    if e.code == some "ECONNABORTED" then
      ⟨504, none, none,
        .jsonBody [("error", "Request timeout"),
          ("message", "The AI processing took too long. Please try with a smaller image.")]⟩
    else if e.code == some "ECONNREFUSED" then
      ⟨503, none, none,
        .jsonBody [("error", "Service unavailable"), ("message", refusedMsg)]⟩
    else
      ⟨500, none, none,
        .jsonBody [("error", "Internal server error"), ("message", e.message)]⟩

/-- The uploaded file produced by multer memory storage. -/
structure UploadedFile where
  buffer : List Nat
  originalname : String
  mimetype : String
  size : Nat

/-- The multer fileFilter allow-list, as written in the source. -/
def allowedTypes : List String :=
  ["image/jpeg", "image/png", "image/jpg", "image/webp"]

/-- The multer `limits.fileSize` ceiling, in bytes. -/
def fileSizeLimit : Nat := 10 * 1024 * 1024

/-- The multer fileFilter callback: accepts exactly the allow-listed
declared MIME types. -/
def fileFilterAccepts (mimetype : String) : Bool :=
  allowedTypes.contains mimetype

/-- Whether the upload middleware passes a file through to the handler:
it must pass the fileFilter and stay within the size limit. -/
def uploadAccepts (mimetype : String) (size : Nat) : Bool :=
  fileFilterAccepts mimetype && size ≤ fileSizeLimit

/-- 400 response for a request with no `file` field. -/
def noFileResponse : HttpResponse :=
  ⟨400, none, none, .jsonBody [("error", "No file uploaded")]⟩

/-- 500 response when `RAPIDAPI_KEY` is not configured. -/
def noKeyResponse : HttpResponse :=
  ⟨500, none, none, .jsonBody [("error", "API key not configured")]⟩

/-- 500 response when the removal provider's envelope fails the structural
check. -/
def invalidFormatResponse : HttpResponse :=
  ⟨500, none, none, .jsonBody [("error", "Invalid API response format")]⟩

/-- 500 response when the enhancement provider returns no image URL. -/
def noUrlResponse : HttpResponse :=
  ⟨500, none, none, .jsonBody [("error", "No enhanced image URL returned")]⟩

/-- Generic failure message of the removal endpoint. -/
def removeBgDefaultMsg : String := "Background removal failed"

/-- Generic failure message of the enhancement endpoint. -/
def enhanceDefaultMsg : String := "Image enhancement failed"

/-- `ECONNREFUSED` guidance message of the removal endpoint. -/
def removeBgRefusedMsg : String :=
  "Unable to connect to background removal service. Please try again later."

/-- `ECONNREFUSED` guidance message of the enhancement endpoint. -/
def enhanceRefusedMsg : String :=
  "Unable to connect to image enhancement service. Please try again later."

/-- `apiResponse.data.results` of the removal provider. -/
def removeBgResults (data : JVal) : JVal := jGet data "results"

/-- The structural check of the removal handler: the negation of
`!results || !results[0] || !results[0].entities || !results[0].entities[0]`. -/
def removeBgStructOk (data : JVal) : Bool :=
  let results := removeBgResults data
  jTruthy results && jTruthy (jIndex results 0) &&
    jTruthy (jGet (jIndex results 0) "entities") &&
    jTruthy (jIndex (jGet (jIndex results 0) "entities") 0)

/-- `results[0].entities[0].image` of the removal provider response. -/
def removeBgImageField (data : JVal) : JVal :=
  jGet (jIndex (jGet (jIndex (removeBgResults data) 0) "entities") 0) "image"

/-- The 200 response of the removal endpoint: PNG bytes with an attachment
disposition whose file name embeds the current timestamp. -/
def pngSuccessResponse (now : Nat) (bytes : List Nat) : HttpResponse :=
  ⟨200, some "image/png",
    some ("attachment; filename=\"removed-bg-" ++ toString now ++ ".png\""),
    .binary bytes⟩

/-- The 200 response of the enhancement endpoint: JPEG bytes with an
attachment disposition whose file name embeds the current timestamp. -/
def jpegSuccessResponse (now : Nat) (bytes : List Nat) : HttpResponse :=
  ⟨200, some "image/jpeg",
    some ("attachment; filename=\"enhanced-" ++ toString now ++ ".jpg\""),
    .binary bytes⟩

/-- The `POST /api/remove-bg` handler.  `call` is the outcome of the single
outbound axios POST; the second component counts upstream calls made. -/
def removeBgHandler (file : Option UploadedFile) (apiKey : Option String)
    (now : Nat) (call : CallResult JVal) : HttpResponse × Nat :=
  match file with
  | none => (noFileResponse, 0)
  | some _ =>
    match apiKey with
    | none => (noKeyResponse, 0)
    | some _ =>
      match call with
      | .ok data =>
        if removeBgStructOk data = false then (invalidFormatResponse, 1)
        else
          match bufferFromBase64 (removeBgImageField data) with
          | .ok bytes => (pngSuccessResponse now bytes, 1)
          | .error msg =>
              (catchBlock removeBgDefaultMsg removeBgRefusedMsg ⟨none, none, msg⟩, 1)
      | .httpError s dm em =>
          (catchBlock removeBgDefaultMsg removeBgRefusedMsg ⟨some (s, dm), none, em⟩, 1)
      | .transport c em =>
          (catchBlock removeBgDefaultMsg removeBgRefusedMsg ⟨none, c, em⟩, 1)

/-- 500 response when the enhancement provider reports a nonzero
`error_code`; its `details` field appears only when the provider message
is a string. -/
def enhanceFailedResponse (detail : Option String) : HttpResponse :=
  ⟨500, none, none,
    .jsonBody (("error", enhanceDefaultMsg) ::
      (match detail with | some d => [("details", d)] | none => []))⟩

/-- The `POST /api/enhance-image` handler.  `call` is the outcome of the
first outbound axios POST; `fetch2` gives the outcome of the dependent GET
for each URL.  The second component counts upstream calls made. -/
def enhanceHandler (file : Option UploadedFile) (apiKey : Option String)
    (now : Nat) (fetch2 : String → CallResult (List Nat))
    (call : CallResult JVal) : HttpResponse × Nat :=
  match file with
  | none => (noFileResponse, 0)
  | some _ =>
    match apiKey with
    | none => (noKeyResponse, 0)
    | some _ =>
      match call with
      | .ok data =>
        if jIsZero (jGet data "error_code") = false then
          (enhanceFailedResponse (jStrOpt (jGet (jGet data "error_detail") "message")), 1)
        else
          let enhancedImageUrl := jGet (jGet data "data") "image_url"
          if jTruthy enhancedImageUrl = false then (noUrlResponse, 1)
          else
            match fetch2 (jToUrlString enhancedImageUrl) with
            | .ok bytes => (jpegSuccessResponse now bytes, 2)
            | .httpError s dm em =>
                (catchBlock enhanceDefaultMsg enhanceRefusedMsg ⟨some (s, dm), none, em⟩, 2)
            | .transport c em =>
                (catchBlock enhanceDefaultMsg enhanceRefusedMsg ⟨none, c, em⟩, 2)
      | .httpError s dm em =>
          (catchBlock enhanceDefaultMsg enhanceRefusedMsg ⟨some (s, dm), none, em⟩, 1)
      | .transport c em =>
          (catchBlock enhanceDefaultMsg enhanceRefusedMsg ⟨none, c, em⟩, 1)

/-- The routes registered on the express app, in registration order, plus
the trailing 404 fallback. -/
inductive Handler where
  | healthRoot
  | removeBg
  | enhanceImage
  | notFound
deriving DecidableEq

/-- Express routing: the source registers `GET /`, `POST /api/remove-bg`,
`POST /api/enhance-image`, and a catch-all 404 handler; no other route
(in particular no `/health`) exists. -/
def dispatch (method path : String) : Handler :=
  if method = "GET" ∧ path = "/" then .healthRoot
  else if method = "POST" ∧ path = "/api/remove-bg" then .removeBg
  else if method = "POST" ∧ path = "/api/enhance-image" then .enhanceImage
  else .notFound

/-- Response of the `GET /` route. -/
def rootResponse : HttpResponse :=
  ⟨200, none, none, .jsonBody [("status", "OK")]⟩

/-- Response of the catch-all 404 handler. -/
def notFoundResponse : HttpResponse :=
  ⟨404, none, none, .jsonBody [("error", "Endpoint not found")]⟩

/-- Response of the routes that need no request data (the liveness route
and the 404 fallback); the POST endpoints need a request body. -/
def simpleDispatchResponse (method path : String) : Option HttpResponse :=
  match dispatch method path with
  | .healthRoot => some rootResponse
  | .notFound => some notFoundResponse
  | _ => none

/-- A sample uploaded file used by the concrete witnesses. -/
def sampleFile : UploadedFile := ⟨[1, 2, 3], "photo.png", "image/png", 3⟩

/-- A sample well-formed removal provider response whose image field holds
the base64 encoding of the two bytes 104, 105. -/
def sampleRemoveBgData : JVal :=
  .obj [("results", .arr [.obj [("entities", .arr [.obj [("image", .str "aGk=")]])]])]

/-- On inputs where the strict decoder succeeds, Node's lenient decoder
reads exactly the same 6-bit values. -/
theorem filterMap_b64_of_mapB64 (l : List Char) :
    ∀ v : List Nat, mapB64 (l.filter (fun c => c != '=')) = some v →
      l.filterMap b64CharVal = v := by
  induction l with
  | nil =>
      intro v h
      simp [mapB64] at h
      simp [h]
  | cons c t ih =>
      intro v h
      by_cases hc : c = '='
      · subst hc
        have hfilter : (('=' : Char) != '=') = false := by decide
        rw [List.filter_cons, hfilter] at h
        simp only [Bool.false_eq_true, if_false] at h
        rw [List.filterMap_cons]
        have hnone : b64CharVal '=' = none := by decide
        rw [hnone]
        exact ih v h
      · have hfilter : (c != '=') = true := by simp [hc]
        rw [List.filter_cons, hfilter] at h
        simp only [if_true] at h
        rw [List.filterMap_cons]
        rcases hb : b64CharVal c with _ | a
        · simp only [mapB64, hb] at h
          exact absurd h (by simp)
        · simp only [mapB64, hb] at h
          rcases hm : mapB64 (t.filter (fun x => x != '=')) with _ | w
          · rw [hm] at h
            simp at h
          · rw [hm] at h
            simp only [Option.some.injEq] at h
            rw [← h]
            simp [ih w hm]

/-- When the strict decoder accepts `s`, the handler's `Buffer.from`
decoding agrees with it. -/
theorem nodeB64Decode_eq_of_strict (s : String) (bs : List Nat)
    (hdec : base64Decode? s = some bs) : nodeB64Decode s = bs := by
  unfold base64Decode? at hdec
  rcases hmap : mapB64 (s.data.filter (fun c => c != '=')) with _ | m
  · rw [hmap] at hdec
    exact Option.noConfusion hdec
  · rw [hmap] at hdec
    injection hdec with hdec
    unfold nodeB64Decode
    rw [filterMap_b64_of_mapB64 s.data m hmap]
    exact hdec

/-- C1: for a well-formed removal provider response whose
`results[0].entities[0].image` is a valid base64 string, the removal
endpoint answers 200 with content type image/png, an attachment content
disposition, and exactly the base64-decoded bytes as body. -/
theorem removeBg_success_relays_decoded_png
    (uf : UploadedFile) (key : String) (now : Nat) (data : JVal)
    (s : String) (bs : List Nat)
    (hstruct : removeBgStructOk data = true)
    (himg : removeBgImageField data = JVal.str s)
    (hdec : base64Decode? s = some bs) :
    removeBgHandler (some uf) (some key) now (.ok data) = (pngSuccessResponse now bs, 1) ∧
    (pngSuccessResponse now bs).status = 200 ∧
    (pngSuccessResponse now bs).contentType = some "image/png" ∧
    (pngSuccessResponse now bs).contentDisposition =
      some ("attachment; filename=\"removed-bg-" ++ toString now ++ ".png\"") ∧
    (pngSuccessResponse now bs).body = .binary bs := by
  have hnode : nodeB64Decode s = bs := nodeB64Decode_eq_of_strict s bs hdec
  refine ⟨?_, rfl, rfl, rfl, rfl⟩
  simp only [removeBgHandler, hstruct, himg, bufferFromBase64, hnode,
    Bool.true_eq_false, if_false]

/-- C1 witness: the sample response decodes to the bytes 104, 105 and the
handler relays them as the PNG attachment body. -/
theorem removeBg_success_witness :
    removeBgStructOk sampleRemoveBgData = true ∧
    removeBgImageField sampleRemoveBgData = JVal.str "aGk=" ∧
    base64Decode? "aGk=" = some [104, 105] ∧
    removeBgHandler (some sampleFile) (some "key") 7 (.ok sampleRemoveBgData) =
      (pngSuccessResponse 7 [104, 105], 1) :=
  ⟨rfl, rfl, rfl,
    (removeBg_success_relays_decoded_png sampleFile "key" 7 sampleRemoveBgData
      "aGk=" [104, 105] rfl rfl rfl).1⟩

/-- A sample successful enhancement provider response. -/
def sampleEnhanceData : JVal :=
  .obj [("error_code", .num 0),
    ("data", .obj [("image_url", .str "https://img.example/out.jpg")])]

/-- A sample environment for the dependent GET: every URL serves the three
bytes 9, 8, 7. -/
def sampleFetch : String → CallResult (List Nat) := fun _ => .ok [9, 8, 7]

/-- C2: for a first-hop enhancement response with `error_code` 0 and a
present `data.image_url`, the endpoint performs the dependent GET (two
upstream calls in total) and answers 200 with content type image/jpeg and
exactly the bytes served by that URL. -/
theorem enhance_success_relays_fetched_bytes
    (uf : UploadedFile) (key : String) (now : Nat) (data : JVal)
    (fetch2 : String → CallResult (List Nat)) (u : String) (bs : List Nat)
    (hcode : jGet data "error_code" = JVal.num 0)
    (hurl : jGet (jGet data "data") "image_url" = JVal.str u)
    (hne : u ≠ "")
    (hfetch : fetch2 u = .ok bs) :
    enhanceHandler (some uf) (some key) now fetch2 (.ok data) =
      (jpegSuccessResponse now bs, 2) ∧
    (jpegSuccessResponse now bs).status = 200 ∧
    (jpegSuccessResponse now bs).contentType = some "image/jpeg" ∧
    (jpegSuccessResponse now bs).contentDisposition =
      some ("attachment; filename=\"enhanced-" ++ toString now ++ ".jpg\"") ∧
    (jpegSuccessResponse now bs).body = .binary bs := by
  refine ⟨?_, rfl, rfl, rfl, rfl⟩
  have hz : jIsZero (jGet data "error_code") = true := by rw [hcode]; rfl
  have ht : jTruthy (jGet (jGet data "data") "image_url") = true := by
    rw [hurl]; simp [jTruthy, hne]
  simp only [enhanceHandler, hz, ht, Bool.true_eq_false, if_false, hurl,
    jToUrlString, hfetch]
  simp [jTruthy, hne]

/-- C2 witness: the sample response points at a URL serving 9, 8, 7 and
the handler relays those bytes as the JPEG attachment body. -/
theorem enhance_success_witness :
    jGet sampleEnhanceData "error_code" = JVal.num 0 ∧
    jGet (jGet sampleEnhanceData "data") "image_url" =
      JVal.str "https://img.example/out.jpg" ∧
    sampleFetch "https://img.example/out.jpg" = .ok [9, 8, 7] ∧
    enhanceHandler (some sampleFile) (some "key") 7 sampleFetch
      (.ok sampleEnhanceData) = (jpegSuccessResponse 7 [9, 8, 7], 2) :=
  ⟨rfl, rfl, rfl,
    (enhance_success_relays_fetched_bytes sampleFile "key" 7 sampleEnhanceData
      sampleFetch "https://img.example/out.jpg" [9, 8, 7] rfl rfl
      (by decide) rfl).1⟩

/-- C3: when the upstream call fails with an HTTP error status, both
endpoints preserve that status outward and answer with the message the
status determines: 400 invalid-image, 401/403 authentication, 429 rate
limit, 500 AI processing, 503 temporarily unavailable, anything else the
endpoint's generic failure message. -/
theorem upstream_http_error_mapping
    (uf : UploadedFile) (key : String) (now : Nat)
    (fetch2 : String → CallResult (List Nat))
    (s : Nat) (dm : Option String) (em : String) :
    (removeBgHandler (some uf) (some key) now (.httpError s dm em)).1.status = s ∧
    (enhanceHandler (some uf) (some key) now fetch2 (.httpError s dm em)).1.status = s ∧
    (s = 400 →
      jsonField (removeBgHandler (some uf) (some key) now (.httpError s dm em)).1 "error" =
        some "Invalid image format or corrupted file" ∧
      jsonField (enhanceHandler (some uf) (some key) now fetch2 (.httpError s dm em)).1 "error" =
        some "Invalid image format or corrupted file") ∧
    (s = 401 ∨ s = 403 →
      jsonField (removeBgHandler (some uf) (some key) now (.httpError s dm em)).1 "error" =
        some "API authentication error. Please check your API key" ∧
      jsonField (enhanceHandler (some uf) (some key) now fetch2 (.httpError s dm em)).1 "error" =
        some "API authentication error. Please check your API key") ∧
    (s = 429 →
      jsonField (removeBgHandler (some uf) (some key) now (.httpError s dm em)).1 "error" =
        some "API rate limit exceeded. Please try again later" ∧
      jsonField (enhanceHandler (some uf) (some key) now fetch2 (.httpError s dm em)).1 "error" =
        some "API rate limit exceeded. Please try again later") ∧
    (s = 500 →
      jsonField (removeBgHandler (some uf) (some key) now (.httpError s dm em)).1 "error" =
        some "AI processing error. Please try again" ∧
      jsonField (enhanceHandler (some uf) (some key) now fetch2 (.httpError s dm em)).1 "error" =
        some "AI processing error. Please try again") ∧
    (s = 503 →
      jsonField (removeBgHandler (some uf) (some key) now (.httpError s dm em)).1 "error" =
        some "Service temporarily unavailable. Please try again in a moment" ∧
      jsonField (enhanceHandler (some uf) (some key) now fetch2 (.httpError s dm em)).1 "error" =
        some "Service temporarily unavailable. Please try again in a moment") ∧
    (s ≠ 400 → s ≠ 401 → s ≠ 403 → s ≠ 429 → s ≠ 500 → s ≠ 503 →
      jsonField (removeBgHandler (some uf) (some key) now (.httpError s dm em)).1 "error" =
        some "Background removal failed" ∧
      jsonField (enhanceHandler (some uf) (some key) now fetch2 (.httpError s dm em)).1 "error" =
        some "Image enhancement failed") := by
  have jr : jsonField (removeBgHandler (some uf) (some key) now (.httpError s dm em)).1 "error" =
      some (statusMessage removeBgDefaultMsg s) := rfl
  have je : jsonField (enhanceHandler (some uf) (some key) now fetch2 (.httpError s dm em)).1 "error" =
      some (statusMessage enhanceDefaultMsg s) := rfl
  refine ⟨rfl, rfl, ?_, ?_, ?_, ?_, ?_, ?_⟩
  · rintro rfl
    exact ⟨jr, je⟩
  · rintro (rfl | rfl)
    · exact ⟨jr, je⟩
    · exact ⟨jr, je⟩
  · rintro rfl
    exact ⟨jr, je⟩
  · rintro rfl
    exact ⟨jr, je⟩
  · rintro rfl
    exact ⟨jr, je⟩
  · intro h400 h401 h403 h429 h500 h503
    rw [jr, je]
    constructor
    · simp [statusMessage, h400, h401, h403, h429, h500, h503, removeBgDefaultMsg]
    · simp [statusMessage, h400, h401, h403, h429, h500, h503, enhanceDefaultMsg]

/-- C3 witness: an upstream 402 is preserved and answered with the removal
endpoint's generic failure message. -/
theorem upstream_http_error_mapping_witness :
    (removeBgHandler (some sampleFile) (some "key") 7 (.httpError 402 none "boom")).1.status = 402 ∧
    jsonField (removeBgHandler (some sampleFile) (some "key") 7 (.httpError 402 none "boom")).1 "error" =
      some "Background removal failed" := by
  have h := upstream_http_error_mapping sampleFile "key" 7 sampleFetch 402 none "boom"
  exact ⟨h.1, (h.2.2.2.2.2.2.2 (by decide) (by decide) (by decide) (by decide)
    (by decide) (by decide)).1⟩

/-- C5: transport failures behind the upstream-HTTP-error case:
`ECONNABORTED` gives 504 with the request-timeout message, `ECONNREFUSED`
gives 503 with the service-unavailable message, and any other caught
failure gives 500 with a generic internal error plus the raw message as
diagnostic detail. -/
theorem transport_error_mapping
    (uf : UploadedFile) (key : String) (now : Nat)
    (fetch2 : String → CallResult (List Nat))
    (code : Option String) (em : String) :
    (code = some "ECONNABORTED" →
      (removeBgHandler (some uf) (some key) now (.transport code em)).1 =
        ⟨504, none, none, .jsonBody [("error", "Request timeout"),
          ("message", "The AI processing took too long. Please try with a smaller image.")]⟩ ∧
      (enhanceHandler (some uf) (some key) now fetch2 (.transport code em)).1 =
        ⟨504, none, none, .jsonBody [("error", "Request timeout"),
          ("message", "The AI processing took too long. Please try with a smaller image.")]⟩) ∧
    (code = some "ECONNREFUSED" →
      (removeBgHandler (some uf) (some key) now (.transport code em)).1 =
        ⟨503, none, none, .jsonBody [("error", "Service unavailable"),
          ("message", removeBgRefusedMsg)]⟩ ∧
      (enhanceHandler (some uf) (some key) now fetch2 (.transport code em)).1 =
        ⟨503, none, none, .jsonBody [("error", "Service unavailable"),
          ("message", enhanceRefusedMsg)]⟩) ∧
    (code ≠ some "ECONNABORTED" → code ≠ some "ECONNREFUSED" →
      (removeBgHandler (some uf) (some key) now (.transport code em)).1 =
        ⟨500, none, none, .jsonBody [("error", "Internal server error"),
          ("message", em)]⟩ ∧
      (enhanceHandler (some uf) (some key) now fetch2 (.transport code em)).1 =
        ⟨500, none, none, .jsonBody [("error", "Internal server error"),
          ("message", em)]⟩) := by
  refine ⟨?_, ?_, ?_⟩
  · rintro rfl
    exact ⟨rfl, rfl⟩
  · rintro rfl
    exact ⟨rfl, rfl⟩
  · intro hab hrf
    have hab2 : (code == some "ECONNABORTED") = false := by
      simp [hab]
    have hrf2 : (code == some "ECONNREFUSED") = false := by
      simp [hrf]
    constructor
    · show catchBlock removeBgDefaultMsg removeBgRefusedMsg ⟨none, code, em⟩ = _
      simp [catchBlock, hab2, hrf2]
    · show catchBlock enhanceDefaultMsg enhanceRefusedMsg ⟨none, code, em⟩ = _
      simp [catchBlock, hab2, hrf2]

/-- C5 witness: a timeout (`ECONNABORTED`) on the removal endpoint yields
504 with the request-timeout message. -/
theorem transport_error_mapping_witness :
    (removeBgHandler (some sampleFile) (some "key") 7
      (.transport (some "ECONNABORTED") "timeout of 60000ms exceeded")).1 =
      ⟨504, none, none, .jsonBody [("error", "Request timeout"),
        ("message", "The AI processing took too long. Please try with a smaller image.")]⟩ :=
  ((transport_error_mapping sampleFile "key" 7 sampleFetch
    (some "ECONNABORTED") "timeout of 60000ms exceeded").1 rfl).1

/-- A removal provider response that passes the handler's structural check
(`entities[0]` exists) but has no `image` field at all. -/
def sampleMissingImageData : JVal :=
  .obj [("results", .arr [.obj [("entities", .arr [.obj []])]])]

/-- C4 counterexample: with `entities[0]` present but its `image` field
missing, the removal endpoint does NOT answer with the distinct
"Invalid API response format" condition; the base64 decode throws and the
catch block answers 500 "Internal server error" instead. -/
theorem removeBg_missing_image_counterexample :
    removeBgStructOk sampleMissingImageData = true ∧
    removeBgImageField sampleMissingImageData = JVal.undefined ∧
    (removeBgHandler (some sampleFile) (some "key") 7 (.ok sampleMissingImageData)).1.status = 500 ∧
    jsonField (removeBgHandler (some sampleFile) (some "key") 7 (.ok sampleMissingImageData)).1
      "error" = some "Internal server error" ∧
    jsonField (removeBgHandler (some sampleFile) (some "key") 7 (.ok sampleMissingImageData)).1
      "error" ≠ some "Invalid API response format" :=
  ⟨rfl, rfl, rfl, rfl, by decide⟩

/-- Receivers whose property access cannot throw in JavaScript: reading a
property of `null` or `undefined` throws a TypeError, which the total
`jGet` does not model; every other receiver yields a value (possibly
`undefined`) exactly as `jGet` does. -/
def jsGetSafe : JVal → Bool
  | .null => false
  | .undefined => false
  | _ => true

/-- Receivers on which `jIndex` agrees with JavaScript numeric indexing:
exact on arrays, and both give `undefined` on `null`, `undefined`,
booleans and numbers; JavaScript additionally reads the "0" property of
objects and the characters of strings, which `jIndex` does not model, so
those receivers are excluded. -/
def jsIndexFaithful : JVal → Bool
  | .obj _ => false
  | .str _ => false
  | _ => true

/-- C4 amended, over the envelopes where the embedding's accesses coincide
with JavaScript (a non-null response body, and `results` and
`results[0].entities` not truthy objects or strings): the structural check
covers only `results`, `results[0]`, `results[0].entities` and
`entities[0]`; when one of those is missing the endpoint answers 500
"Invalid API response format", but when `entities[0]` exists and its
`image` field is absent the decode throws and the endpoint answers 500
"Internal server error"; in both cases the handler returns a response
rather than crashing.  The second part needs no extra hypotheses: a true
structural check already forces `results` and `entities` to be arrays,
where indexing is exact. -/
theorem removeBg_response_format_amended
    (uf : UploadedFile) (key : String) (now : Nat) (data : JVal)
    (hdata : jsGetSafe data = true)
    (hres : jsIndexFaithful (removeBgResults data) = true)
    (hents : jsIndexFaithful (jGet (jIndex (removeBgResults data) 0) "entities") = true) :
    (removeBgStructOk data = false →
      removeBgHandler (some uf) (some key) now (.ok data) = (invalidFormatResponse, 1) ∧
      invalidFormatResponse.status = 500 ∧
      jsonField invalidFormatResponse "error" = some "Invalid API response format") ∧
    (removeBgStructOk data = true → removeBgImageField data = JVal.undefined →
      (removeBgHandler (some uf) (some key) now (.ok data)).1.status = 500 ∧
      jsonField (removeBgHandler (some uf) (some key) now (.ok data)).1 "error" =
        some "Internal server error") := by
  constructor
  · intro h
    refine ⟨?_, rfl, rfl⟩
    simp only [removeBgHandler, h, if_true]
  · intro h himg
    have hred : removeBgHandler (some uf) (some key) now (.ok data) =
        (catchBlock removeBgDefaultMsg removeBgRefusedMsg
          ⟨none, none, bufferTypeErrorMessage⟩, 1) := by
      simp only [removeBgHandler, h, himg, bufferFromBase64,
        Bool.true_eq_false, if_false]
    rw [hred]
    exact ⟨rfl, rfl⟩

/-- C4 amended witness: an empty provider object lies in the faithful
domain, fails the structural check and gets the "Invalid API response
format" 500. -/
theorem removeBg_response_format_amended_witness :
    jsGetSafe (JVal.obj []) = true ∧
    removeBgStructOk (JVal.obj []) = false ∧
    removeBgHandler (some sampleFile) (some "key") 7 (.ok (JVal.obj [])) =
      (invalidFormatResponse, 1) := by
  have h := removeBg_response_format_amended sampleFile "key" 7 (JVal.obj []) rfl rfl rfl
  exact ⟨rfl, rfl, (h.1 rfl).1⟩

/-- C6: with a file present but the shared API key unset, both endpoints
answer 500 "API key not configured" and perform zero upstream calls,
whatever the (never consulted) upstream outcomes would have been; the
handlers stay total, so the missing key never crashes the process. -/
theorem missing_api_key_rejected
    (uf : UploadedFile) (now : Nat)
    (fetch2 : String → CallResult (List Nat))
    (call call2 : CallResult JVal) :
    removeBgHandler (some uf) none now call = (noKeyResponse, 0) ∧
    enhanceHandler (some uf) none now fetch2 call2 = (noKeyResponse, 0) ∧
    noKeyResponse.status = 500 ∧
    jsonField noKeyResponse "error" = some "API key not configured" :=
  ⟨rfl, rfl, rfl, rfl⟩

/-- C7: with no file field in the request, both endpoints answer 400 with
error "No file uploaded" and perform zero upstream calls, whatever the key
and the (never consulted) upstream outcomes. -/
theorem no_file_rejected
    (key : Option String) (now : Nat)
    (fetch2 : String → CallResult (List Nat))
    (call call2 : CallResult JVal) :
    removeBgHandler none key now call = (noFileResponse, 0) ∧
    enhanceHandler none key now fetch2 call2 = (noFileResponse, 0) ∧
    noFileResponse.status = 400 ∧
    jsonField noFileResponse "error" = some "No file uploaded" :=
  ⟨rfl, rfl, rfl, rfl⟩

/-- C10: the missing-file check runs before the API-key check, so with no
file and no configured key both endpoints answer 400 "No file uploaded",
not the 500 configuration error. -/
theorem file_check_precedes_key_check
    (now : Nat) (fetch2 : String → CallResult (List Nat))
    (call call2 : CallResult JVal) :
    removeBgHandler none none now call = (noFileResponse, 0) ∧
    enhanceHandler none none now fetch2 call2 = (noFileResponse, 0) ∧
    noFileResponse.status = 400 ∧
    jsonField noFileResponse "error" = some "No file uploaded" ∧
    noFileResponse.status ≠ 500 ∧
    jsonField noFileResponse "error" ≠ some "API key not configured" :=
  ⟨rfl, rfl, rfl, rfl, by decide, by decide⟩

/-- The MIME allow-list as the specification words it: jpeg, png, webp
only.  Kept separate from `allowedTypes` (the list in the source) so the
two can be compared. -/
def specMimeAllowList : List String := ["image/jpeg", "image/png", "image/webp"]

/-- C8 counterexample: the source's fileFilter also accepts the declared
MIME type `image/jpg`, which is outside the specified set. -/
theorem upload_accepts_image_jpg_counterexample :
    uploadAccepts "image/jpg" 1024 = true ∧
    specMimeAllowList.contains "image/jpg" = false := by
  constructor
  · rfl
  · rfl

/-- C8 amended: the intake accepts a file exactly when its declared MIME
type is one of image/jpeg, image/png, image/jpg, image/webp and its size
is at most 10 MiB. -/
theorem upload_intake_amended (m : String) (size : Nat) :
    uploadAccepts m size = true ↔
      ((m = "image/jpeg" ∨ m = "image/png" ∨ m = "image/jpg" ∨ m = "image/webp") ∧
        size ≤ 10 * 1024 * 1024) := by
  simp [uploadAccepts, fileFilterAccepts, allowedTypes, fileSizeLimit]

/-- C9 counterexample: no `/health` route is registered, so a GET to
`/health` falls through to the catch-all handler and is answered 404 with
the endpoint-not-found body, not a liveness body. -/
theorem health_route_counterexample :
    dispatch "GET" "/health" = Handler.notFound ∧
    simpleDispatchResponse "GET" "/health" = some notFoundResponse ∧
    notFoundResponse.status = 404 ∧
    jsonField notFoundResponse "error" = some "Endpoint not found" ∧
    jsonField notFoundResponse "status" = none := by
  refine ⟨?_, ?_, rfl, rfl, rfl⟩ <;> rfl

/-- C9 amended: GET `/` answers the liveness body with status OK, and every
method/path pair outside the three registered routes (so `/health` among
them) is answered 404 with the endpoint-not-found body. -/
theorem routing_amended :
    simpleDispatchResponse "GET" "/" = some rootResponse ∧
    rootResponse.status = 200 ∧
    jsonField rootResponse "status" = some "OK" ∧
    ∀ method path : String,
      ¬(method = "GET" ∧ path = "/") →
      ¬(method = "POST" ∧ path = "/api/remove-bg") →
      ¬(method = "POST" ∧ path = "/api/enhance-image") →
      dispatch method path = Handler.notFound ∧
      simpleDispatchResponse method path = some notFoundResponse := by
  refine ⟨rfl, rfl, rfl, ?_⟩
  intro m p h1 h2 h3
  have hd : dispatch m p = Handler.notFound := by
    unfold dispatch
    rw [if_neg h1, if_neg h2, if_neg h3]
  refine ⟨hd, ?_⟩
  unfold simpleDispatchResponse
  rw [hd]

/-- C9 amended witness: GET `/health` is unregistered and is answered by
the 404 handler. -/
theorem routing_amended_witness :
    dispatch "GET" "/health" = Handler.notFound ∧
    simpleDispatchResponse "GET" "/health" = some notFoundResponse :=
  routing_amended.2.2.2 "GET" "/health" (by simp) (by simp) (by simp)

/-- C8 amended witness: a 10-byte webp upload is accepted. -/
theorem upload_intake_amended_witness :
    uploadAccepts "image/webp" 10 = true :=
  (upload_intake_amended "image/webp" 10).mpr
    ⟨Or.inr (Or.inr (Or.inr rfl)), by norm_num⟩
